import Mathlib

/-!
Verification of the MCP Terminal Bridge server
(`agent-terminal-system/mcp-bridge/server.py`).

The server keeps a global in-memory registry `terminals : Dict[str, Dict]`
mapping a terminal id to a terminal-record dictionary, consults a Docker
client (the session provider) and a Redis client (the durability mirror),
and exposes FastAPI routes.  We embed this shallowly:

* Python dictionaries become association lists (`Dict α`) with
  finite-map update semantics (`dictSet` removes any old binding for the
  key and appends the new one; Python keeps the slot in place, but as a
  finite map the two agree on every lookup).
* `datetime.utcnow()` becomes an explicit `now : Nat` parameter (seconds);
  `timedelta(hours=h)` becomes `h * 3600`.  A single operation reads one
  time value.
* Calls to the Docker / Redis clients are effectful and can raise; their
  outcomes are oracle inputs (`CreateEffects`, `ExecEffects`,
  `LogsEffects`, `DestroyEffects`).  A raised exception from a client
  lands in the surrounding `try`/`except`, which re-raises
  `HTTPException(500, ...)`.
* Raising `HTTPException` becomes returning `Except.error`; since the
  registry is a global that keeps any mutation already performed when an
  exception is raised, state-mutating operations return the (possibly
  mutated) registry alongside the `Except` result.
* JWT encode/decode (the PyJWT collaborator) is modelled abstractly as a
  record holding the claims, the expiry and the signing secret; decoding
  with the right secret and an unexpired token yields the claims back,
  anything else is rejected.  The `exp` claim is modelled as a separate
  field of the token; `decode` returns the remaining claims.
* `HTTPException` detail strings are kept as their constant prefixes; the
  interpolated exception text of the Python `str(e)` is dropped.
-/

/-- Association list standing in for a Python `dict` keyed by strings. -/
abbrev Dict (α : Type) : Type := List (String × α)

/-- Lookup, first binding wins (Python `d[k]` / `k in d`). -/
def dictGet {α : Type} : Dict α → String → Option α
  | [], _ => none
  | p :: tl, k => if p.1 = k then some p.2 else dictGet tl k

/-- Python `d[k] = v`: remove any old binding for `k`, bind `k` to `v`. -/
def dictSet {α : Type} : Dict α → String → α → Dict α
  | [], k, v => [(k, v)]
  | p :: tl, k, v => if p.1 = k then dictSet tl k v else p :: dictSet tl k v

/-- Python `d.values()`. -/
def dictValues {α : Type} (d : Dict α) : List α := d.map Prod.snd

/-- Python `d.update(e)`: bindings of `e` override those of `d`. -/
def dictUpdate {α : Type} (d e : Dict α) : Dict α :=
  e.foldl (fun acc p => dictSet acc p.1 p.2) d

/-- The `Config` class of `server.py` (fields the core logic reads). -/
structure Config where
  JWT_SECRET : String := "mcp-terminal-bridge-secret"
  JWT_EXPIRE_HOURS : Nat := 24
  MAX_TERMINALS_PER_AGENT : Nat := 5
  TERMINAL_TIMEOUT_HOURS : Nat := 4
deriving DecidableEq

/-- The module-level `config = Config()` instance. -/
def config : Config := {}

/-- `fastapi.HTTPException(status_code, detail)`. -/
structure HTTPException where
  status_code : Nat
  detail : String
deriving DecidableEq

/-- `HTTPException(404, "Terminal not found")`. -/
def notFoundError : HTTPException := ⟨404, "Terminal not found"⟩

/-- `HTTPException(403, "Access denied")` — the ownership-mismatch rejection. -/
def accessDeniedError : HTTPException := ⟨403, "Access denied"⟩

/-- `HTTPException(403, "Agent ID mismatch")` on the create route. -/
def agentMismatchError : HTTPException := ⟨403, "Agent ID mismatch"⟩

/-- `HTTPException(400, "Terminal not running")`. -/
def notRunningError : HTTPException := ⟨400, "Terminal not running"⟩

/-- `HTTPException(429, "Maximum terminals (N) reached for agent")` — the
quota rejection (detail kept without the interpolated count). -/
def quotaError : HTTPException := ⟨429, "Maximum terminals reached for agent"⟩

/-- `HTTPException(500, "Failed to create terminal: ...")`. -/
def createFailedError : HTTPException := ⟨500, "Failed to create terminal"⟩

/-- `HTTPException(500, "Command execution failed: ...")`. -/
def execFailedError : HTTPException := ⟨500, "Command execution failed"⟩

/-- `HTTPException(500, "Failed to get logs: ...")`. -/
def logsFailedError : HTTPException := ⟨500, "Failed to get logs"⟩

/-- `HTTPException(500, "Failed to destroy terminal: ...")`. -/
def destroyFailedError : HTTPException := ⟨500, "Failed to destroy terminal"⟩

/-- The `terminal_info` record dictionary built by `create_agent_terminal`
(timestamps as seconds). -/
structure TerminalInfo where
  terminal_id : String
  agent_id : String
  container_id : String
  status : String
  created_at : Nat
  log_dir : String
  command : String
  expires_at : Nat
deriving DecidableEq

/-- The global `terminals : Dict[str, Dict]` registry. -/
abbrev Terminals : Type := Dict TerminalInfo

/-- Predicate of the list comprehension in the quota check:
`t["agent_id"] == agent_id and t["status"] == "running"`. -/
def isRunningOwned (agent_id : String) (t : TerminalInfo) : Bool :=
  t.agent_id == agent_id && t.status == "running"

/-- Number of `running` terminals the registry holds for an agent. -/
def runningCount (st : Terminals) (agent_id : String) : Nat :=
  ((dictValues st).filter (isRunningOwned agent_id)).length

/-- Oracle for the external calls `create_agent_terminal` makes:
`docker_client.containers.run` (succeeds with a container id, or raises)
and `redis_client.setex` (succeeds or raises). -/
structure CreateEffects where
  containerOk : Bool
  containerId : String
  mirrorOk : Bool
deriving DecidableEq

instance exceptDecEq {ε α : Type} [DecidableEq ε] [DecidableEq α] :
    DecidableEq (Except ε α)
  | .ok a, .ok b =>
      if h : a = b then .isTrue (by rw [h]) else .isFalse (by simp [h])
  | .ok _, .error _ => .isFalse (by simp)
  | .error _, .ok _ => .isFalse (by simp)
  | .error e, .error f =>
      if h : e = f then .isTrue (by rw [h]) else .isFalse (by simp [h])

/-- Result of `create_agent_terminal`: the registry afterwards (a global,
so mutations survive a raised exception), the returned record or raised
exception, and the environment dictionary passed to `containers.run`
(`none` when the quota check rejects before any provider call). -/
structure CreateOutcome where
  terminals : Terminals
  result : Except HTTPException TerminalInfo
  providerEnv : Option (Dict String)
deriving DecidableEq

/-- The orchestrator-injected `env_vars` dictionary before the caller
merge: `{"AGENT_ID": ..., "TERMINAL_ID": ..., "LOG_DIR": "/tmp/logs"}`. -/
def injectedEnv (agent_id terminal_id : String) : Dict String :=
  [("AGENT_ID", agent_id), ("TERMINAL_ID", terminal_id), ("LOG_DIR", "/tmp/logs")]

/-- `create_agent_terminal(agent_id, command, environment)` of `server.py`
(lines 147-209).  `terminal_id` stands for the fresh `uuid.uuid4()`.
Order of the source: quota check, build `env_vars` (caller environment
merged over the injected ones via `dict.update`; skipped when falsy, i.e.
empty), run the container, insert the record into the global registry,
then the best-effort Redis `setex` — a failure of which is caught by the
same `except` and re-raised as a 500 after the insert already happened. -/
def create_agent_terminal (cfg : Config) (st : Terminals) (eff : CreateEffects)
    (now : Nat) (terminal_id : String) (agent_id : String) (command : String)
    (environment : Dict String) : CreateOutcome :=
  let agent_terminals := (dictValues st).filter (isRunningOwned agent_id)
  if cfg.MAX_TERMINALS_PER_AGENT ≤ agent_terminals.length then
    { terminals := st, result := .error quotaError, providerEnv := none }
  else
    let env_vars :=
      if environment.isEmpty then injectedEnv agent_id terminal_id
      else dictUpdate (injectedEnv agent_id terminal_id) environment
    if eff.containerOk then
      let terminal_info : TerminalInfo :=
        { terminal_id := terminal_id
          agent_id := agent_id
          container_id := eff.containerId
          status := "running"
          created_at := now
          log_dir := "/tmp/agent-logs/" ++ agent_id ++ "/" ++ terminal_id
          command := command
          expires_at := now + cfg.TERMINAL_TIMEOUT_HOURS * 3600 }
      let st2 := dictSet st terminal_id terminal_info
      if eff.mirrorOk then
        { terminals := st2, result := .ok terminal_info, providerEnv := some env_vars }
      else
        { terminals := st2, result := .error createFailedError, providerEnv := some env_vars }
    else
      { terminals := st, result := .error createFailedError, providerEnv := some env_vars }

/-- Oracle for `container.exec_run` (which is called with `stdout=True,
stderr=True, stream=False`, so its `output` is the single multiplexed
stream carrying both; we model that combined stream as
`stdoutData ++ stderrData`) and for the Redis `lpush`/`expire` audit
write (`mirrorOk`). -/
structure ExecEffects where
  ok : Bool
  stdoutData : String
  stderrData : String
  exit_code : Int
  execution_time : Nat
  mirrorOk : Bool
deriving DecidableEq

/-- The `ExecuteResponse` pydantic model. -/
structure ExecuteResponse where
  output : String
  error : String
  exit_code : Int
  execution_time : Nat
deriving DecidableEq

/-- `execute_command_in_terminal(terminal_id, command, timeout)` of
`server.py` (lines 211-255): not-found check, running check, provider
exec, audit write, and the response — whose `error` field is the literal
`""` and whose `output` is the combined exec stream. -/
def execute_command_in_terminal (st : Terminals) (eff : ExecEffects)
    (terminal_id : String) (command : String) (timeout : Nat) :
    Except HTTPException ExecuteResponse :=
  match dictGet st terminal_id with
  | none => .error notFoundError
  | some t =>
    if t.status ≠ "running" then .error notRunningError
    else if eff.ok then
      if eff.mirrorOk then
        .ok { output := eff.stdoutData ++ eff.stderrData
              error := ""
              exit_code := eff.exit_code
              execution_time := eff.execution_time }
      else .error execFailedError
    else .error execFailedError

/-- Oracle for `container.logs(tail=lines)`. -/
structure LogsEffects where
  ok : Bool
  logsText : String
deriving DecidableEq

/-- `get_terminal_logs(terminal_id, lines)` of `server.py` (lines 257-270). -/
def get_terminal_logs (st : Terminals) (eff : LogsEffects)
    (terminal_id : String) (lines : Nat) : Except HTTPException String :=
  match dictGet st terminal_id with
  | none => .error notFoundError
  | some _ => if eff.ok then .ok eff.logsText else .error logsFailedError

/-- Oracle for `container.get/stop/remove` (`providerOk`) and the Redis
`delete` calls (`mirrorOk`) made by `destroy_terminal`. -/
structure DestroyEffects where
  providerOk : Bool
  mirrorOk : Bool
deriving DecidableEq

/-- `destroy_terminal(terminal_id)` of `server.py` (lines 272-297): not-found
check, container stop/remove, then `terminals[terminal_id]["status"] =
"destroyed"` — the record is NOT removed from the registry — then the
Redis deletes, whose failure is re-raised as a 500 after the status was
already flipped. -/
def destroy_terminal (st : Terminals) (eff : DestroyEffects)
    (terminal_id : String) : Terminals × Except HTTPException Bool :=
  match dictGet st terminal_id with
  | none => (st, .error notFoundError)
  | some t =>
    if eff.providerOk then
      let st2 := dictSet st terminal_id { t with status := "destroyed" }
      if eff.mirrorOk then (st2, .ok true)
      else (st2, .error destroyFailedError)
    else (st, .error destroyFailedError)

/-- The `TerminalCreateRequest` pydantic model (note `timeout_hours` is a
declared request field). -/
structure TerminalCreateRequest where
  agent_id : String
  command : Option String := some "bash"
  environment : Option (Dict String) := none
  timeout_hours : Option Nat := some 4
deriving DecidableEq

/-- Python `x or default` on an optional string (`None` and `""` are falsy). -/
def pyOrStr (o : Option String) (default : String) : String :=
  match o with
  | none => default
  | some s => if s = "" then default else s

/-- Python `x or {}` on an optional dict. -/
def pyOrDict (o : Option (Dict String)) : Dict String :=
  match o with
  | none => []
  | some d => d

/-- Route `POST /terminals` (`create_terminal`, lines 333-353): checks
`request.agent_id` against the verified token's `agent_id` claim, then
calls `create_agent_terminal`.  `request.timeout_hours` is not passed
on — exactly as in the source. -/
def create_terminal (cfg : Config) (st : Terminals) (eff : CreateEffects)
    (now : Nat) (terminal_id : String) (request : TerminalCreateRequest)
    (token_agent : Option String) : CreateOutcome :=
  if some request.agent_id ≠ token_agent then
    { terminals := st, result := .error agentMismatchError, providerEnv := none }
  else
    create_agent_terminal cfg st eff now terminal_id request.agent_id
      (pyOrStr request.command "bash") (pyOrDict request.environment)

/-- Route `POST /terminals/{id}/execute` (`execute_command`, lines 355-366):
not-found check, ownership check against the token's `agent_id` claim,
then `execute_command_in_terminal`. -/
def execute_command (st : Terminals) (eff : ExecEffects) (terminal_id : String)
    (command : String) (timeout : Nat) (token_agent : Option String) :
    Except HTTPException ExecuteResponse :=
  match dictGet st terminal_id with
  | none => .error notFoundError
  | some t =>
    if some t.agent_id ≠ token_agent then .error accessDeniedError
    else execute_command_in_terminal st eff terminal_id command timeout

/-- Route `GET /terminals/{id}/logs` (`get_logs`, lines 368-380). -/
def get_logs (st : Terminals) (eff : LogsEffects) (terminal_id : String)
    (lines : Nat) (token_agent : Option String) : Except HTTPException String :=
  match dictGet st terminal_id with
  | none => .error notFoundError
  | some t =>
    if some t.agent_id ≠ token_agent then .error accessDeniedError
    else get_terminal_logs st eff terminal_id lines

/-- Route `DELETE /terminals/{id}` (`delete_terminal`, lines 382-394). -/
def delete_terminal (st : Terminals) (eff : DestroyEffects)
    (terminal_id : String) (token_agent : Option String) :
    Terminals × Except HTTPException Bool :=
  match dictGet st terminal_id with
  | none => (st, .error notFoundError)
  | some t =>
    if some t.agent_id ≠ token_agent then (st, .error accessDeniedError)
    else destroy_terminal st eff terminal_id

/-- Route `GET /terminals` (`list_terminals`, lines 396-401): the values of
the registry filtered by `t["agent_id"] == token_data.get("agent_id")`. -/
def list_terminals (st : Terminals) (token_agent : Option String) :
    List TerminalInfo :=
  (dictValues st).filter (fun t => decide (some t.agent_id = token_agent))

/-- Abstract model of a PyJWT token: claims, the `exp` claim (kept as a
separate field), and the secret it was signed with. -/
structure JwtToken where
  claims : Dict String
  exp : Nat
  secret : String
deriving DecidableEq

/-- Rejection reasons of `jwt.decode`. -/
inductive JwtError where
  | expired
  | invalid
deriving DecidableEq

/-- `jwt.encode(payload, secret)`. -/
def jwtEncode (claims : Dict String) (exp : Nat) (secret : String) : JwtToken :=
  ⟨claims, exp, secret⟩

/-- `jwt.decode(token, secret, algorithms)`: signature check (modelled as
the secrets agreeing) and expiry check; returns the claims. -/
def jwtDecode (tok : JwtToken) (secret : String) (now : Nat) :
    Except JwtError (Dict String) :=
  if tok.secret ≠ secret then .error .invalid
  else if tok.exp < now then .error .expired
  else .ok tok.claims

/-- `create_access_token(data)` (lines 129-134): adds an `exp` of now plus
`JWT_EXPIRE_HOURS` and signs with `JWT_SECRET`. -/
def create_access_token (cfg : Config) (data : Dict String) (now : Nat) : JwtToken :=
  jwtEncode data (now + cfg.JWT_EXPIRE_HOURS * 3600) cfg.JWT_SECRET

/-- `verify_token` (lines 136-144): decode, mapping the two failure modes
to 401 responses. -/
def verify_token (cfg : Config) (tok : JwtToken) (now : Nat) :
    Except HTTPException (Dict String) :=
  match jwtDecode tok cfg.JWT_SECRET now with
  | .ok payload => .ok payload
  | .error .expired => .error ⟨401, "Token expired"⟩
  | .error .invalid => .error ⟨401, "Invalid token"⟩

/-- The response of `POST /auth/token`. -/
structure TokenResponse where
  access_token : JwtToken
  token_type : String
  expires_in : Nat
deriving DecidableEq

/-- Route `POST /auth/token` (`create_token`, lines 326-331).  The route has
no `Depends(verify_token)` and no other credential parameter: any caller
may request a token for any `agent_id`. -/
def create_token (cfg : Config) (agent_id : String) (now : Nat) : TokenResponse :=
  { access_token :=
      create_access_token cfg [("agent_id", agent_id), ("iat", toString now)] now
    token_type := "bearer"
    expires_in := cfg.JWT_EXPIRE_HOURS * 3600 }

/-- One externally triggerable registry-touching operation, with the
oracle outcomes of its external calls.  `internalDestroyOp` is the expiry
sweeper's direct call to `destroy_terminal` (no route, no token). -/
inductive Op where
  | createOp (eff : CreateEffects) (now : Nat) (terminal_id : String)
      (request : TerminalCreateRequest) (token_agent : Option String)
  | executeOp (eff : ExecEffects) (terminal_id command : String)
      (timeout : Nat) (token_agent : Option String)
  | logsOp (eff : LogsEffects) (terminal_id : String) (lines : Nat)
      (token_agent : Option String)
  | destroyOp (eff : DestroyEffects) (terminal_id : String)
      (token_agent : Option String)
  | listOp (token_agent : Option String)
  | internalDestroyOp (eff : DestroyEffects) (terminal_id : String)

/-- The registry after an operation.  `execute_command`, `get_logs` and
`list_terminals` never write the registry; the create and destroy paths
return their (possibly mutated) registry. -/
def applyOp (cfg : Config) (st : Terminals) : Op → Terminals
  | .createOp eff now terminal_id request token_agent =>
      (create_terminal cfg st eff now terminal_id request token_agent).terminals
  | .executeOp _ _ _ _ _ => st
  | .logsOp _ _ _ _ => st
  | .destroyOp eff terminal_id token_agent =>
      (delete_terminal st eff terminal_id token_agent).1
  | .listOp _ => st
  | .internalDestroyOp eff terminal_id =>
      (destroy_terminal st eff terminal_id).1

/-- Freshness of the `uuid.uuid4()` id drawn by a create operation: the
generated id is not already a key of the registry. -/
def freshCreateId (st : Terminals) : Op → Prop
  | .createOp _ _ terminal_id _ _ => dictGet st terminal_id = none
  | _ => True

/-- Well-formedness of the registry: every record's status is `running`
or `destroyed` (true of every record the server ever builds). -/
def statusWF (st : Terminals) : Prop :=
  ∀ p ∈ st, p.2.status = "running" ∨ p.2.status = "destroyed"

/-- A concrete running terminal owned by agent `"a1"`. -/
def sampleInfo : TerminalInfo :=
  { terminal_id := "t1", agent_id := "a1", container_id := "c1",
    status := "running", created_at := 0,
    log_dir := "/tmp/agent-logs/a1/t1", command := "bash",
    expires_at := 14400 }

/-- A registry holding just `sampleInfo` under key `"t1"`. -/
def sampleSt : Terminals := [("t1", sampleInfo)]

/-- The registry after a successful owner destroy of `"t1"` in `sampleSt`. -/
def destroyedSt : Terminals :=
  (delete_terminal sampleSt ⟨true, true⟩ "t1" (some "a1")).1

/-- The record produced by the Claim C3 witness create. -/
def c3Info : TerminalInfo :=
  { terminal_id := "t1", agent_id := "a1", container_id := "c1",
    status := "running", created_at := 1000,
    log_dir := "/tmp/agent-logs/a1/t1", command := "bash",
    expires_at := 15400 }

/-- The response of the Claim C10 witness execute. -/
def c10Resp : ExecuteResponse :=
  { output := "hi", error := "", exit_code := 0, execution_time := 1 }

/-! Lemmas about the dictionary model. -/

theorem dictGet_set_self {α : Type} (d : Dict α) (k : String) (v : α) :
    dictGet (dictSet d k v) k = some v := by
  induction d with
  | nil => simp [dictSet, dictGet]
  | cons p tl ih =>
      by_cases h : p.1 = k
      · simp [dictSet, h, ih]
      · simp [dictSet, dictGet, h, ih]

theorem dictGet_set_ne {α : Type} (d : Dict α) (k k2 : String) (v : α)
    (h : k2 ≠ k) : dictGet (dictSet d k v) k2 = dictGet d k2 := by
  have hk : ¬ (k = k2) := fun hh => h hh.symm
  induction d with
  | nil => simp [dictSet, dictGet, hk]
  | cons p tl ih =>
      by_cases hp : p.1 = k
      · have hp2 : ¬ (p.1 = k2) := by rw [hp]; exact hk
        simp [dictSet, dictGet, hp, hp2, hk, ih]
      · by_cases hq : p.1 = k2
        · simp [dictSet, dictGet, hp, hq, h, hk]
        · simp [dictSet, dictGet, hp, hq, ih]

theorem dictGet_mem {α : Type} {d : Dict α} {k : String} {v : α}
    (h : dictGet d k = some v) : (k, v) ∈ d := by
  induction d with
  | nil => simp [dictGet] at h
  | cons p tl ih =>
      by_cases hp : p.1 = k
      · simp only [dictGet, if_pos hp] at h
        cases p with
        | mk k1 v1 =>
            simp only [Option.some.injEq] at h
            simp_all
      · simp only [dictGet, if_neg hp] at h
        exact List.mem_cons_of_mem _ (ih h)

theorem runningCount_nil (a : String) : runningCount [] a = 0 := rfl

theorem runningCount_cons (p : String × TerminalInfo) (tl : Terminals)
    (a : String) :
    runningCount (p :: tl) a
      = (if isRunningOwned a p.2 then 1 else 0) + runningCount tl a := by
  simp only [runningCount, dictValues, List.map_cons, List.filter_cons]
  by_cases h : isRunningOwned a p.2
  · simp [h, Nat.add_comm]
  · simp [h]

theorem runningCount_set_le (st : Terminals) (k : String) (v : TerminalInfo)
    (a : String) :
    runningCount (dictSet st k v) a
      ≤ runningCount st a + (if isRunningOwned a v then 1 else 0) := by
  induction st with
  | nil =>
      simp only [dictSet, runningCount_cons, runningCount_nil, Nat.add_zero,
        Nat.zero_add]
      exact Nat.le_refl _
  | cons p tl ih =>
      by_cases hp : p.1 = k
      · calc runningCount (dictSet (p :: tl) k v) a
            = runningCount (dictSet tl k v) a := by simp [dictSet, hp]
          _ ≤ runningCount tl a + (if isRunningOwned a v then 1 else 0) := ih
          _ ≤ runningCount (p :: tl) a + (if isRunningOwned a v then 1 else 0) := by
              rw [runningCount_cons]
              exact Nat.add_le_add_right (Nat.le_add_left _ _) _
      · calc runningCount (dictSet (p :: tl) k v) a
            = (if isRunningOwned a p.2 then 1 else 0)
                + runningCount (dictSet tl k v) a := by
              simp [dictSet, hp, runningCount_cons]
          _ ≤ (if isRunningOwned a p.2 then 1 else 0)
                + (runningCount tl a + (if isRunningOwned a v then 1 else 0)) :=
              Nat.add_le_add_left ih _
          _ = runningCount (p :: tl) a + (if isRunningOwned a v then 1 else 0) := by
              rw [runningCount_cons, Nat.add_assoc]

/-! Shape of the registry after each mutating operation. -/

theorem create_state_cases (cfg : Config) (st : Terminals) (eff : CreateEffects)
    (now : Nat) (terminal_id agent_id command : String)
    (environment : Dict String) :
    (create_agent_terminal cfg st eff now terminal_id agent_id command
        environment).terminals = st ∨
    ∃ info : TerminalInfo, info.agent_id = agent_id ∧ info.status = "running" ∧
      runningCount st agent_id < cfg.MAX_TERMINALS_PER_AGENT ∧
      (create_agent_terminal cfg st eff now terminal_id agent_id command
          environment).terminals = dictSet st terminal_id info := by
  unfold create_agent_terminal
  by_cases hq : cfg.MAX_TERMINALS_PER_AGENT
      ≤ ((dictValues st).filter (isRunningOwned agent_id)).length
  · left; simp [hq]
  · cases hc : eff.containerOk
    · left; simp [hq, hc]
    · cases hm : eff.mirrorOk <;>
      · right
        refine ⟨TerminalInfo.mk terminal_id agent_id eff.containerId "running"
            now ("/tmp/agent-logs/" ++ agent_id ++ "/" ++ terminal_id) command
            (now + cfg.TERMINAL_TIMEOUT_HOURS * 3600), rfl, rfl,
            Nat.lt_of_not_le hq, ?_⟩
        simp [hq, hc, hm]

theorem destroy_state_cases (st : Terminals) (eff : DestroyEffects)
    (terminal_id : String) :
    (destroy_terminal st eff terminal_id).1 = st ∨
    ∃ t0 : TerminalInfo, dictGet st terminal_id = some t0 ∧
      (destroy_terminal st eff terminal_id).1
        = dictSet st terminal_id { t0 with status := "destroyed" } := by
  unfold destroy_terminal
  cases hg : dictGet st terminal_id with
  | none => left; rfl
  | some t0 =>
      cases hp : eff.providerOk
      · left; simp [hp]
      · cases hm : eff.mirrorOk
        · right; exact ⟨t0, rfl, by simp [hp, hm]⟩
        · right; exact ⟨t0, rfl, by simp [hp, hm]⟩

theorem delete_state_cases (st : Terminals) (eff : DestroyEffects)
    (terminal_id : String) (token_agent : Option String) :
    (delete_terminal st eff terminal_id token_agent).1 = st ∨
    (delete_terminal st eff terminal_id token_agent).1
      = (destroy_terminal st eff terminal_id).1 := by
  unfold delete_terminal
  cases hg : dictGet st terminal_id with
  | none => left; rfl
  | some t =>
      by_cases ho : some t.agent_id ≠ token_agent
      · left; simp [ho]
      · right; simp [ho]

theorem create_terminal_state_cases (cfg : Config) (st : Terminals)
    (eff : CreateEffects) (now : Nat) (terminal_id : String)
    (request : TerminalCreateRequest) (token_agent : Option String) :
    (create_terminal cfg st eff now terminal_id request token_agent).terminals
        = st ∨
    (create_terminal cfg st eff now terminal_id request token_agent).terminals
      = (create_agent_terminal cfg st eff now terminal_id request.agent_id
          (pyOrStr request.command "bash") (pyOrDict request.environment)).terminals := by
  unfold create_terminal
  by_cases ha : some request.agent_id ≠ token_agent
  · left; simp [ha]
  · right; simp [ha]

/-- Claim C2: for every agent, the number of terminals with status
`running` owned by that agent never exceeds the configured quota
(`MAX_TERMINALS_PER_AGENT`, default 5): `create_agent_terminal` rejects
with the 429 quota error (leaving the registry unchanged) whenever the
agent already owns at least that many running terminals, and every
operation of the surface preserves the quota invariant. -/
theorem quota_never_exceeded (cfg : Config) (st : Terminals) (op : Op)
    (a : String)
    (hinv : ∀ b : String, runningCount st b ≤ cfg.MAX_TERMINALS_PER_AGENT) :
    (∀ b : String,
      runningCount (applyOp cfg st op) b ≤ cfg.MAX_TERMINALS_PER_AGENT) ∧
    (∀ (eff : CreateEffects) (now : Nat) (tid cmd : String) (env : Dict String),
      cfg.MAX_TERMINALS_PER_AGENT ≤ runningCount st a →
      (create_agent_terminal cfg st eff now tid a cmd env).result
          = .error quotaError ∧
      (create_agent_terminal cfg st eff now tid a cmd env).terminals = st) := by
  constructor
  · intro b
    cases op with
    | createOp eff now tid req tok =>
        rcases create_terminal_state_cases cfg st eff now tid req tok with h | h
        · simp only [applyOp]; rw [h]; exact hinv b
        · rcases create_state_cases cfg st eff now tid req.agent_id
              (pyOrStr req.command "bash") (pyOrDict req.environment)
            with h2 | ⟨info, hag, hst, hlt, h2⟩
          · simp only [applyOp]; rw [h, h2]; exact hinv b
          · simp only [applyOp]; rw [h, h2]
            have hle := runningCount_set_le st tid info b
            by_cases hb : info.agent_id = b
            · have hirt : isRunningOwned b info = true := by
                simp [isRunningOwned, hb, hst]
              rw [hirt, if_pos rfl] at hle
              have hba : runningCount st b < cfg.MAX_TERMINALS_PER_AGENT := by
                rw [← hb, hag] at *
                exact hag ▸ hlt
              omega
            · have hirt : isRunningOwned b info = false := by
                simp [isRunningOwned, hb]
              rw [hirt] at hle
              simp only [if_neg Bool.false_ne_true, Nat.add_zero] at hle
              exact le_trans hle (hinv b)
    | executeOp eff tid cmd timeout tok => exact hinv b
    | logsOp eff tid lines tok => exact hinv b
    | listOp tok => exact hinv b
    | destroyOp eff tid tok =>
        rcases delete_state_cases st eff tid tok with h | h
        · simp only [applyOp]; rw [h]; exact hinv b
        · simp only [applyOp]; rw [h]
          rcases destroy_state_cases st eff tid with h2 | ⟨t0, hg, h2⟩
          · rw [h2]; exact hinv b
          · rw [h2]
            have hle := runningCount_set_le st tid { t0 with status := "destroyed" } b
            have hirt : isRunningOwned b { t0 with status := "destroyed" } = false := by
              simp [isRunningOwned]
            rw [hirt] at hle
            simp only [if_neg Bool.false_ne_true, Nat.add_zero] at hle
            exact le_trans hle (hinv b)
    | internalDestroyOp eff tid =>
        rcases destroy_state_cases st eff tid with h2 | ⟨t0, hg, h2⟩
        · simp only [applyOp]; rw [h2]; exact hinv b
        · simp only [applyOp]; rw [h2]
          have hle := runningCount_set_le st tid { t0 with status := "destroyed" } b
          have hirt : isRunningOwned b { t0 with status := "destroyed" } = false := by
            simp [isRunningOwned]
          rw [hirt] at hle
          simp only [if_neg Bool.false_ne_true, Nat.add_zero] at hle
          exact le_trans hle (hinv b)
  · intro eff now tid cmd env hge
    have hge2 : cfg.MAX_TERMINALS_PER_AGENT
        ≤ ((dictValues st).filter (isRunningOwned a)).length := hge
    constructor <;> simp [create_agent_terminal, hge2]

/-- Witness for Claim C2: the quota invariant holds after a concrete
create on the empty registry, and the quota hypothesis is discharged
there. -/
theorem quota_never_exceeded_witness :
    runningCount (applyOp config []
        (Op.createOp ⟨true, "c1", true⟩ 0 "t1"
          ⟨"a1", some "bash", none, some 4⟩ (some "a1"))) "a1"
      ≤ config.MAX_TERMINALS_PER_AGENT :=
  (quota_never_exceeded config []
      (Op.createOp ⟨true, "c1", true⟩ 0 "t1"
        ⟨"a1", some "bash", none, some 4⟩ (some "a1")) "a1"
      (fun _ => Nat.zero_le _)).1 "a1"

theorem destroy_keeps_record_fields (st : Terminals) (eff : DestroyEffects)
    (tid1 tid : String) (t t2 : TerminalInfo)
    (hwf : statusWF st)
    (h1 : dictGet st tid = some t)
    (h2 : dictGet (destroy_terminal st eff tid1).1 tid = some t2) :
    t2.agent_id = t.agent_id ∧
      (t2.status = t.status ∨ (t.status = "running" ∧ t2.status = "destroyed")) := by
  rcases destroy_state_cases st eff tid1 with h3 | ⟨t0, hg, h3⟩
  · rw [h3, h1] at h2
    have ht : t = t2 := Option.some.inj h2
    subst ht
    exact ⟨rfl, Or.inl rfl⟩
  · rw [h3] at h2
    by_cases htid : tid = tid1
    · subst htid
      rw [h1] at hg
      have ht0 : t0 = t := (Option.some.inj hg).symm
      subst ht0
      rw [dictGet_set_self] at h2
      have ht2 : t2 = { t0 with status := "destroyed" } := (Option.some.inj h2).symm
      subst ht2
      rcases hwf (tid, t0) (dictGet_mem h1) with hs | hs
      · exact ⟨rfl, Or.inr ⟨hs, rfl⟩⟩
      · exact ⟨rfl, Or.inl hs.symm⟩
    · rw [dictGet_set_ne st tid1 tid _ htid, h1] at h2
      have ht : t = t2 := Option.some.inj h2
      subst ht
      exact ⟨rfl, Or.inl rfl⟩

/-- Claim C8: for every terminal record present before and after any
operation of the surface (with the create-side uuid freshness and the
status well-formedness that the server maintains), `agent_id` is
unchanged, and the status either stays what it was or moves
`running → destroyed`; in particular no operation reassigns ownership
and no operation revives a destroyed terminal. -/
theorem agent_id_and_status_invariant (cfg : Config) (st : Terminals) (op : Op)
    (tid : String) (t t2 : TerminalInfo)
    (hwf : statusWF st)
    (hfresh : freshCreateId st op)
    (h1 : dictGet st tid = some t)
    (h2 : dictGet (applyOp cfg st op) tid = some t2) :
    t2.agent_id = t.agent_id ∧
      (t2.status = t.status ∨ (t.status = "running" ∧ t2.status = "destroyed")) := by
  cases op with
  | createOp eff now tid1 req tok =>
      have hfr : dictGet st tid1 = none := hfresh
      have hne : tid ≠ tid1 := by
        intro hh; rw [hh, hfr] at h1; exact Option.noConfusion h1
      simp only [applyOp] at h2
      rcases create_terminal_state_cases cfg st eff now tid1 req tok with h | h
      · rw [h, h1] at h2
        have ht : t = t2 := Option.some.inj h2
        subst ht; exact ⟨rfl, Or.inl rfl⟩
      · rcases create_state_cases cfg st eff now tid1 req.agent_id
            (pyOrStr req.command "bash") (pyOrDict req.environment)
          with h3 | ⟨info, _, _, _, h3⟩
        · rw [h, h3, h1] at h2
          have ht : t = t2 := Option.some.inj h2
          subst ht; exact ⟨rfl, Or.inl rfl⟩
        · rw [h, h3, dictGet_set_ne st tid1 tid info hne, h1] at h2
          have ht : t = t2 := Option.some.inj h2
          subst ht; exact ⟨rfl, Or.inl rfl⟩
  | executeOp eff tid1 cmd timeout tok =>
      simp only [applyOp] at h2
      rw [h1] at h2
      have ht : t = t2 := Option.some.inj h2
      subst ht; exact ⟨rfl, Or.inl rfl⟩
  | logsOp eff tid1 lines tok =>
      simp only [applyOp] at h2
      rw [h1] at h2
      have ht : t = t2 := Option.some.inj h2
      subst ht; exact ⟨rfl, Or.inl rfl⟩
  | listOp tok =>
      simp only [applyOp] at h2
      rw [h1] at h2
      have ht : t = t2 := Option.some.inj h2
      subst ht; exact ⟨rfl, Or.inl rfl⟩
  | destroyOp eff tid1 tok =>
      simp only [applyOp] at h2
      rcases delete_state_cases st eff tid1 tok with h | h
      · rw [h, h1] at h2
        have ht : t = t2 := Option.some.inj h2
        subst ht; exact ⟨rfl, Or.inl rfl⟩
      · rw [h] at h2
        exact destroy_keeps_record_fields st eff tid1 tid t t2 hwf h1 h2
  | internalDestroyOp eff tid1 =>
      simp only [applyOp] at h2
      exact destroy_keeps_record_fields st eff tid1 tid t t2 hwf h1 h2

/-! Lemmas about `dictUpdate` (Python `dict.update`). -/

theorem dictGet_update_of_not_mem {α : Type} (d : Dict α) (e : Dict α)
    (k : String) (h : ∀ p ∈ e, p.1 ≠ k) :
    dictGet (dictUpdate d e) k = dictGet d k := by
  induction e generalizing d with
  | nil => rfl
  | cons p tl ih =>
      have hstep : dictUpdate d (p :: tl) = dictUpdate (dictSet d p.1 p.2) tl := rfl
      rw [hstep, ih (dictSet d p.1 p.2) (fun q hq => h q (List.mem_cons_of_mem _ hq)),
        dictGet_set_ne d p.1 k p.2 (Ne.symm (h p (List.mem_cons_self _ _)))]

theorem dictGet_eq_none_forall {α : Type} {e : Dict α} {k : String}
    (h : dictGet e k = none) : ∀ p ∈ e, p.1 ≠ k := by
  induction e with
  | nil => intro p hp; simp at hp
  | cons q tl ih =>
      by_cases hq : q.1 = k
      · rw [dictGet, if_pos hq] at h; exact Option.noConfusion h
      · intro p hp
        rcases List.mem_cons.mp hp with hp1 | hp2
        · rw [hp1]; exact hq
        · rw [dictGet, if_neg hq] at h
          exact ih h p hp2

theorem dictGet_update_none {α : Type} (d : Dict α) (e : Dict α) (k : String)
    (h : dictGet e k = none) : dictGet (dictUpdate d e) k = dictGet d k :=
  dictGet_update_of_not_mem d e k (dictGet_eq_none_forall h)

theorem dictGet_update_some {α : Type} (d : Dict α) (e : Dict α) (k : String)
    (v : α) (hnd : (e.map Prod.fst).Nodup) (h : dictGet e k = some v) :
    dictGet (dictUpdate d e) k = some v := by
  induction e generalizing d with
  | nil => exact Option.noConfusion h
  | cons p tl ih =>
      have hstep : dictUpdate d (p :: tl) = dictUpdate (dictSet d p.1 p.2) tl := rfl
      by_cases hp : p.1 = k
      · have hv : p.2 = v := by
          rw [dictGet, if_pos hp] at h; exact Option.some.inj h
        have hkn : ∀ q ∈ tl, q.1 ≠ k := by
          intro q hq hqk
          exact (List.nodup_cons.mp hnd).1
            (List.mem_map.mpr ⟨q, hq, hqk.trans hp.symm⟩)
        rw [hstep, dictGet_update_of_not_mem _ tl k hkn, ← hp,
          dictGet_set_self, hv]
      · have h2 : dictGet tl k = some v := by rw [dictGet, if_neg hp] at h; exact h
        rw [hstep]
        exact ih (dictSet d p.1 p.2) (List.nodup_cons.mp hnd).2 h2

theorem create_providerEnv_cases (cfg : Config) (st : Terminals)
    (eff : CreateEffects) (now : Nat) (terminal_id agent_id command : String)
    (environment : Dict String) (envd : Dict String)
    (h : (create_agent_terminal cfg st eff now terminal_id agent_id command
        environment).providerEnv = some envd) :
    (environment = [] → envd = injectedEnv agent_id terminal_id) ∧
    (environment ≠ [] →
      envd = dictUpdate (injectedEnv agent_id terminal_id) environment) := by
  unfold create_agent_terminal at h
  by_cases hq : cfg.MAX_TERMINALS_PER_AGENT
      ≤ ((dictValues st).filter (isRunningOwned agent_id)).length
  · simp [hq] at h
  · cases hc : eff.containerOk
    · simp [hq, hc] at h
      refine ⟨fun he => ?_, fun he => ?_⟩ <;> simp [he] at h <;> exact h.symm
    · cases hm : eff.mirrorOk
      · simp [hq, hc, hm] at h
        refine ⟨fun he => ?_, fun he => ?_⟩ <;> simp [he] at h <;> exact h.symm
      · simp [hq, hc, hm] at h
        refine ⟨fun he => ?_, fun he => ?_⟩ <;> simp [he] at h <;> exact h.symm

/-- Claim C4 counterexample: a create for agent `"alice"` whose caller
environment binds the reserved key `AGENT_ID` to `"mallory"` hands the
provider an environment with `AGENT_ID = "mallory"` — the caller value,
not the orchestrator-injected `"alice"`, wins. -/
theorem caller_env_overrides_injected :
    ((create_agent_terminal config [] ⟨true, "c1", true⟩ 0 "t1" "alice" "bash"
        [("AGENT_ID", "mallory")]).providerEnv.map
      (fun e => dictGet e "AGENT_ID")) = some (some "mallory") ∧
    ("mallory" : String) ≠ "alice" := by decide

/-- Claim C4 amended: the session environment passed to the provider is
the caller-supplied environment merged over the orchestrator-injected
variables (`AGENT_ID`, `TERMINAL_ID`, `LOG_DIR`), and for EVERY key —
reserved keys included — a caller-supplied binding wins over the
injected one; keys the caller does not bind keep the injected value. -/
theorem env_merge_caller_wins (cfg : Config) (st : Terminals)
    (eff : CreateEffects) (now : Nat) (tid agent cmd : String)
    (env envd : Dict String) (k : String)
    (hnd : (env.map Prod.fst).Nodup)
    (h : (create_agent_terminal cfg st eff now tid agent cmd env).providerEnv
        = some envd) :
    dictGet envd k = (match dictGet env k with
      | some v => some v
      | none => dictGet (injectedEnv agent tid) k) := by
  have he := create_providerEnv_cases cfg st eff now tid agent cmd env envd h
  by_cases hemp : env = []
  · rw [he.1 hemp, hemp]
    rfl
  · rw [he.2 hemp]
    cases hg : dictGet env k with
    | none => exact dictGet_update_none _ env k hg
    | some v => exact dictGet_update_some _ env k v hnd hg

/-- Witness for Claim C4 (amended): concrete create for `"alice"` with
caller-bound `AGENT_ID = "mallory"`, looked up at the reserved key. -/
theorem env_merge_caller_wins_witness :
    dictGet [("TERMINAL_ID", "t1"), ("LOG_DIR", "/tmp/logs"),
        ("AGENT_ID", "mallory")] "AGENT_ID"
      = (match dictGet [("AGENT_ID", "mallory")] "AGENT_ID" with
        | some v => some v
        | none => dictGet (injectedEnv "alice" "t1") "AGENT_ID") :=
  env_merge_caller_wins config [] ⟨true, "c1", true⟩ 0 "t1" "alice" "bash"
    [("AGENT_ID", "mallory")]
    [("TERMINAL_ID", "t1"), ("LOG_DIR", "/tmp/logs"), ("AGENT_ID", "mallory")]
    "AGENT_ID" (by decide) (by decide)

/-- Witness for Claim C8: a concrete destroy on `sampleSt`, with every
hypothesis discharged at that input. -/
theorem agent_id_and_status_invariant_witness :
    ({ sampleInfo with status := "destroyed" } : TerminalInfo).agent_id
        = sampleInfo.agent_id ∧
    (({ sampleInfo with status := "destroyed" } : TerminalInfo).status
        = sampleInfo.status ∨
      (sampleInfo.status = "running" ∧
        ({ sampleInfo with status := "destroyed" } : TerminalInfo).status
          = "destroyed")) :=
  agent_id_and_status_invariant config sampleSt
    (Op.destroyOp ⟨true, true⟩ "t1" (some "a1")) "t1" sampleInfo
    { sampleInfo with status := "destroyed" }
    (by unfold statusWF; decide) trivial (by decide) (by decide)

/-- Claim C1 (evidence for the code bug): after a successful
`destroy_terminal`, the record is NOT removed from the registry — it is
kept with status `destroyed` — and the subsequent operations addressed
by the same id do not fail with the 404 not-found error:
`execute_command` fails 400 "Terminal not running", `get_logs` proceeds
past the not-found check into the provider call (here failing 500 on the
removed container), and a second destroy likewise reaches the provider
and fails 500.  The repository's own integration test asserts 404 after
a delete, as the spec requires; the code contradicts it. -/
theorem destroy_leaves_record_behind :
    (delete_terminal sampleSt ⟨true, true⟩ "t1" (some "a1")).2 = .ok true ∧
    dictGet destroyedSt "t1" = some { sampleInfo with status := "destroyed" } ∧
    execute_command destroyedSt ⟨true, "out", "", 0, 1, true⟩ "t1" "echo hi" 30
        (some "a1") = .error notRunningError ∧
    get_logs destroyedSt ⟨false, ""⟩ "t1" 100 (some "a1")
        = .error logsFailedError ∧
    (delete_terminal destroyedSt ⟨false, true⟩ "t1" (some "a1")).2
        = .error destroyFailedError := by decide

/-- Claim C3 counterexample: the route is given `timeout_hours = 1`, yet
the created record has `expires_at = created_at + 4 * 3600` (the
configured default), not `created_at + 1 * 3600`; the requested timeout
is dropped by the route and never reaches `create_agent_terminal`. -/
theorem create_ignores_requested_timeout :
    ((create_terminal config [] ⟨true, "c1", true⟩ 1000 "t1"
        ⟨"a1", some "bash", none, some 1⟩ (some "a1")).result.map
      (fun i => (i.created_at, i.expires_at)))
      = .ok (1000, 1000 + 4 * 3600) ∧
    (1000 + 4 * 3600 : Nat) ≠ 1000 + 1 * 3600 := by decide

/-- Claim C3 amended: every successful create yields a record with
`created_at = now` and
`expires_at = created_at + TERMINAL_TIMEOUT_HOURS * 3600` — the
configured default session timeout; the caller-requested `timeout_hours`
of the request plays no role. -/
theorem expires_at_from_config (cfg : Config) (st : Terminals)
    (eff : CreateEffects) (now : Nat) (tid : String)
    (req : TerminalCreateRequest) (tok : Option String) (info : TerminalInfo)
    (h : (create_terminal cfg st eff now tid req tok).result = .ok info) :
    info.created_at = now ∧
    info.expires_at = info.created_at + cfg.TERMINAL_TIMEOUT_HOURS * 3600 := by
  unfold create_terminal at h
  by_cases ha : some req.agent_id ≠ tok
  · simp [ha] at h
  · rw [if_neg ha] at h
    unfold create_agent_terminal at h
    by_cases hq : cfg.MAX_TERMINALS_PER_AGENT
        ≤ ((dictValues st).filter (isRunningOwned req.agent_id)).length
    · simp [hq] at h
    · cases hc : eff.containerOk
      · simp [hq, hc] at h
      · cases hm : eff.mirrorOk
        · simp [hq, hc, hm] at h
        · simp [hq, hc, hm] at h
          subst h
          exact ⟨rfl, rfl⟩

/-- Witness for Claim C3 (amended) at a concrete create. -/
theorem expires_at_from_config_witness :
    c3Info.created_at = 1000 ∧
    c3Info.expires_at = c3Info.created_at + config.TERMINAL_TIMEOUT_HOURS * 3600 :=
  expires_at_from_config config [] ⟨true, "c1", true⟩ 1000 "t1"
    ⟨"a1", some "bash", none, some 1⟩ (some "a1") c3Info (by decide)

/-- Claim C5 counterexample: with the container started but the Redis
mirror write failing, create returns the 500 error to the caller — not
success — although the in-memory insert already happened (the registry
equals the one of the mirror-success run); similarly a destroy whose
Redis delete fails returns 500 after the status flip. -/
theorem mirror_failure_fails_create :
    (create_agent_terminal config [] ⟨true, "c1", false⟩ 0 "t1" "a1" "bash"
        []).result = .error createFailedError ∧
    (create_agent_terminal config [] ⟨true, "c1", false⟩ 0 "t1" "a1" "bash"
        []).terminals
      = (create_agent_terminal config [] ⟨true, "c1", true⟩ 0 "t1" "a1" "bash"
        []).terminals ∧
    (delete_terminal sampleSt ⟨true, false⟩ "t1" (some "a1")).2
        = .error destroyFailedError := by decide

/-- Claim C5 amended: a mirror-write failure leaves the in-memory
registry exactly as if the mirror write had succeeded (the insert on
create, the status flip on destroy, are kept), but the operation does
NOT report success: it raises the 500 error to the caller. -/
theorem mirror_failure_keeps_memory_state (cfg : Config) (st : Terminals)
    (now : Nat) (tid agent cmd cid : String) (env : Dict String)
    (t : TerminalInfo)
    (hq : runningCount st agent < cfg.MAX_TERMINALS_PER_AGENT)
    (ht : dictGet st tid = some t) :
    ((create_agent_terminal cfg st ⟨true, cid, false⟩ now tid agent cmd
          env).terminals
        = (create_agent_terminal cfg st ⟨true, cid, true⟩ now tid agent cmd
          env).terminals ∧
      (create_agent_terminal cfg st ⟨true, cid, false⟩ now tid agent cmd
          env).result = .error createFailedError) ∧
    ((destroy_terminal st ⟨true, false⟩ tid).1
        = (destroy_terminal st ⟨true, true⟩ tid).1 ∧
      (destroy_terminal st ⟨true, false⟩ tid).2 = .error destroyFailedError) := by
  have hq2 : ¬ (cfg.MAX_TERMINALS_PER_AGENT
      ≤ ((dictValues st).filter (isRunningOwned agent)).length) :=
    Nat.not_le.mpr hq
  refine ⟨⟨?_, ?_⟩, ?_, ?_⟩ <;>
    simp [create_agent_terminal, destroy_terminal, hq2, ht]

/-- Witness for Claim C5 (amended) on `sampleSt`. -/
theorem mirror_failure_keeps_memory_state_witness :
    ((create_agent_terminal config sampleSt ⟨true, "c2", false⟩ 7 "t1" "a1"
          "bash" []).terminals
        = (create_agent_terminal config sampleSt ⟨true, "c2", true⟩ 7 "t1" "a1"
          "bash" []).terminals ∧
      (create_agent_terminal config sampleSt ⟨true, "c2", false⟩ 7 "t1" "a1"
          "bash" []).result = .error createFailedError) ∧
    ((destroy_terminal sampleSt ⟨true, false⟩ "t1").1
        = (destroy_terminal sampleSt ⟨true, true⟩ "t1").1 ∧
      (destroy_terminal sampleSt ⟨true, false⟩ "t1").2
        = .error destroyFailedError) :=
  mirror_failure_keeps_memory_state config sampleSt 7 "t1" "a1" "bash" "c2" []
    sampleInfo (by decide) (by decide)

/-- Claim C6: `execute_command` by a caller whose verified identity
differs from the record's owner fails with the ownership-mismatch
rejection (403 "Access denied"); the result is this constant for every
provider oracle (so no command is forwarded to the provider), and the
registry — hence the terminal's record with all its fields — is
unchanged. -/
theorem execute_ownership_mismatch (cfg : Config) (st : Terminals)
    (eff : ExecEffects) (tid cmd : String) (timeout : Nat) (a2 : String)
    (t : TerminalInfo)
    (ht : dictGet st tid = some t)
    (hne : a2 ≠ t.agent_id) :
    execute_command st eff tid cmd timeout (some a2) = .error accessDeniedError ∧
    applyOp cfg st (Op.executeOp eff tid cmd timeout (some a2)) = st := by
  constructor
  · have hdiff : some t.agent_id ≠ some a2 := by
      intro hh; exact hne (Option.some.inj hh).symm
    simp [execute_command, ht, hdiff]
  · rfl

/-- Witness for Claim C6: agent `"a2"` executing on the terminal of
`"a1"` in `sampleSt`. -/
theorem execute_ownership_mismatch_witness :
    execute_command sampleSt ⟨true, "", "", 0, 0, true⟩ "t1" "ls" 30 (some "a2")
        = .error accessDeniedError ∧
    applyOp config sampleSt
        (Op.executeOp ⟨true, "", "", 0, 0, true⟩ "t1" "ls" 30 (some "a2"))
      = sampleSt :=
  execute_ownership_mismatch config sampleSt ⟨true, "", "", 0, 0, true⟩
    "t1" "ls" 30 "a2" sampleInfo (by decide) (by decide)

/-- Claim C7: every record returned by `list_terminals` for verified
identity A is owned by A — `agent_id = A` — so no record of another
identity is ever included. -/
theorem list_terminals_only_owner (st : Terminals) (a : String)
    (r : TerminalInfo) (h : r ∈ list_terminals st (some a)) :
    r.agent_id = a := by
  unfold list_terminals at h
  have h2 := (List.mem_filter.mp h).2
  have h3 : some r.agent_id = some a := of_decide_eq_true h2
  exact Option.some.inj h3

/-- Witness for Claim C7 on `sampleSt`. -/
theorem list_terminals_only_owner_witness : sampleInfo.agent_id = "a1" :=
  list_terminals_only_owner sampleSt "a1" sampleInfo (by decide)

/-- Claim C9: `create_token` is a total function of the requested
`agent_id` alone — the route carries no credential parameter and no
`Depends(verify_token)`, so no credential is required — and the minted
token round-trips: `verify_token` accepts it at any time within its
24-hour validity and returns a payload whose `agent_id` claim equals the
requested identity. -/
theorem token_mint_roundtrip (cfg : Config) (agent : String) (now now2 : Nat)
    (h : now2 ≤ now + cfg.JWT_EXPIRE_HOURS * 3600) :
    verify_token cfg (create_token cfg agent now).access_token now2
        = .ok [("agent_id", agent), ("iat", toString now)] ∧
    dictGet [("agent_id", agent), ("iat", toString now)] "agent_id"
        = some agent := by
  constructor
  · have h2 : ¬ (now + cfg.JWT_EXPIRE_HOURS * 3600 < now2) := Nat.not_lt.mpr h
    simp [verify_token, create_token, create_access_token, jwtEncode,
      jwtDecode, h2]
  · simp [dictGet]

/-- Witness for Claim C9: token minted for `"a1"` at time 0 and verified
at time 100. -/
theorem token_mint_roundtrip_witness :
    verify_token config (create_token config "a1" 0).access_token 100
        = .ok [("agent_id", "a1"), ("iat", toString 0)] ∧
    dictGet [("agent_id", "a1"), ("iat", toString 0)] "agent_id"
        = some "a1" :=
  token_mint_roundtrip config "a1" 0 100 (by decide)

/-- Claim C10: every successful `execute_command` returns a result whose
`error` field is the empty string — regardless of the command's exit
code or what it wrote to stderr — and whose `output` is the provider's
combined stdout+stderr stream (the exec is invoked with both enabled and
not demultiplexed), so stderr output lands in `output`. -/
theorem execute_success_error_empty (st : Terminals) (eff : ExecEffects)
    (tid cmd : String) (timeout : Nat) (tok : Option String)
    (resp : ExecuteResponse)
    (h : execute_command st eff tid cmd timeout tok = .ok resp) :
    resp.error = "" ∧ resp.output = eff.stdoutData ++ eff.stderrData ∧
    resp.exit_code = eff.exit_code := by
  unfold execute_command at h
  cases hg : dictGet st tid with
  | none => rw [hg] at h; exact absurd h (by simp)
  | some t =>
      rw [hg] at h
      by_cases ho : some t.agent_id ≠ tok
      · simp [ho] at h
      · simp [ho] at h
        unfold execute_command_in_terminal at h
        rw [hg] at h
        by_cases hs : t.status ≠ "running"
        · simp [hs] at h
        · simp [hs] at h
          cases hok : eff.ok
          · simp [hok] at h
          · simp only [hok] at h
            cases hm : eff.mirrorOk
            · simp [hm] at h
            · simp only [hm, if_pos] at h
              simp at h
              subst h
              exact ⟨rfl, rfl, rfl⟩

/-- Witness for Claim C10: a concrete successful execute on `sampleSt`. -/
theorem execute_success_error_empty_witness :
    c10Resp.error = "" ∧ c10Resp.output = "hi" ++ "" ∧
    c10Resp.exit_code = 0 :=
  execute_success_error_empty sampleSt ⟨true, "hi", "", 0, 1, true⟩
    "t1" "echo hi" 30 (some "a1") c10Resp (by decide)
